import Mathlib

/-!
Shallow embedding of the HikeBot group-chat backend (src/backend of the
dsci560_hikebot repository) together with proofs about the claims of its
specification.

Conventions of the embedding:
* Python strings are Lean `String`s; `str.lower()` is `String.toLower`
  (faithful on the ASCII and CJK text appearing in this code base),
  `k in s` (substring test) is `strContains s k`, `str.strip()` is
  `String.trim`.
* Machine `int` values are `Int`, Python floats that are only ever stored
  and string-formatted (never arithmetically combined) are `Rat`.
* Calls to external collaborators (the OpenAI generative backend, the
  `thefuzz` string scorer, the Postgres connection) are modelled as oracle
  parameters: an `Option`-valued result models "returned normally /
  raised", a `Bool` models success of a raw-SQL statement, and the fuzzy
  scorer is an arbitrary function `String → String → Nat` (a score out of
  100), reflecting that `thefuzz.process.extractOne` is an external
  library the code treats as a black box.
* Fallible Python code is `Except`/`Option`-valued; an uncaught exception
  is an `error`/`none` result that propagates to the caller.
-/

namespace HikeBot

/-- Single-quote character as a string (used inside string constants of the
source such as contractions). -/
def apos : String := String.mk [Char.ofNat 39]

/-- Substring test on character lists: `listHasInfix n h` is true iff `n`
occurs contiguously inside `h`.  Models Python `needle in haystack`. -/
def listHasInfix (needle : List Char) : List Char → Bool
  | [] => needle.isEmpty
  | c :: rest => needle.isPrefixOf (c :: rest) || listHasInfix needle rest

/-- Python `needle in hay` for strings. -/
def strContains (hay needle : String) : Bool :=
  listHasInfix needle.toList hay.toList

/-- Python `str.lower()`: character-wise lowercasing (faithful for the ASCII
and CJK text of this code base). -/
def pyLower (s : String) : String :=
  String.mk (s.data.map Char.toLower)

/-- Whitespace recognized by Python `str.strip()` with no argument. -/
def isPySpace (c : Char) : Bool :=
  c = ' ' || c = '\t' || c = '\n' || c = '\r' || c = '\x0b' || c = '\x0c'

/-- Python `str.strip()`: drop whitespace from both ends. -/
def pyStrip (s : String) : String :=
  String.mk (((s.data.dropWhile isPySpace).reverse.dropWhile isPySpace).reverse)

/-- Split a character list at every occurrence of `sep` (the separator is
dropped; `n` separators yield `n + 1` fields, possibly empty). -/
def splitOnChar (sep : Char) : List Char → List (List Char)
  | [] => [[]]
  | c :: t =>
    if c = sep then [] :: splitOnChar sep t
    else
      match splitOnChar sep t with
      | [] => [[c]]
      | h :: r => (c :: h) :: r

/-- Numeric value of a digit sequence. -/
def charsToNat (l : List Char) : Nat :=
  l.foldl (fun n c => n * 10 + (c.toNat - 48)) 0

/-- Decimal representation of the one-decimal-place rationals stored in this
code base; models Python `str(float)` for the values that occur (e.g.
`15.1 → "15.1"`, `12.0 → "12.0"`). -/
def pyFloatStr (q : Rat) : String :=
  if q.den = 1 then s!"{q.num}.0"
  else
    let n := (q * 10).num
    s!"{n / 10}.{(n % 10).natAbs}"

/-- JSON values as produced/consumed by the backend.  Numbers are integers:
every float in the repository is string-formatted before it enters a JSON
payload. -/
inductive Json where
  | null : Json
  | bool (b : Bool) : Json
  | num (n : Int) : Json
  | str (s : String) : Json
  | arr (elems : List Json) : Json
  | obj (fields : List (String × Json)) : Json

mutual

/-- Models Python `json.dumps` (default separators). -/
def Json.dumps : Json → String
  | Json.null => "null"
  | Json.bool b => if b then "true" else "false"
  | Json.num n => toString n
  | Json.str s => "\"" ++ s ++ "\""
  | Json.arr xs => "[" ++ Json.dumpsArr xs ++ "]"
  | Json.obj fs => "\x7b" ++ Json.dumpsObj fs ++ "\x7d"

/-- Comma-separated serialization of a JSON array body. -/
def Json.dumpsArr : List Json → String
  | [] => ""
  | [j] => Json.dumps j
  | j :: rest => Json.dumps j ++ ", " ++ Json.dumpsArr rest

/-- Comma-separated serialization of a JSON object body. -/
def Json.dumpsObj : List (String × Json) → String
  | [] => ""
  | [(k, v)] => "\"" ++ k ++ "\": " ++ Json.dumps v
  | (k, v) :: rest => "\"" ++ k ++ "\": " ++ Json.dumps v ++ ", " ++ Json.dumpsObj rest

end

/-- Field lookup in a JSON object (first occurrence), `none` otherwise. -/
def Json.getField : Json → String → Option Json
  | Json.obj fs, k => (fs.find? (fun p => p.1 = k)).map (·.2)
  | _, _ => none

/-- Trail entity.  `models.Trail` (the SQLAlchemy row type imported by
`auto_planner_service.py`) is not part of src/, but its field set is fixed by
the duck-typed uses in `_fuzzy_match_trail` / `_generate_final_json` and by
the mock records of `MOCK_TRAILS_DB`, which mirror the row one-to-one; both
candidate sources are therefore embedded with this single structure. -/
structure Trail where
  name : String
  location : String
  length_km : Rat
  elevation_gain_m : Int
  difficulty_rating : Rat
  latitude : Rat
  longitude : Rat
  features : String
deriving DecidableEq, Repr

/-- The `MOCK_TRAILS_DB` constant of `auto_planner_service.py`. -/
def MOCK_TRAILS_DB : List Trail := [
  ⟨"Mailbox Peak", "North Bend, WA", 15.1, 1219, 5.0, 47.4665, -121.6749,
    "steep,mailbox_at_top,views"⟩,
  ⟨"Rattlesnake Ledge", "North Bend, WA", 6.4, 353, 2.5, 47.4326, -121.7679,
    "lake_view,crowded,easy"⟩,
  ⟨"Mount Rainier (Skyline Trail)", "Paradise, WA", 9.0, 518, 4.0, 46.7861, -121.7350,
    "glacier,mountain,wildflowers"⟩,
  ⟨"Mount Si", "North Bend, WA", 12.0, 960, 4.5, 47.4881, -121.7225,
    "classic,forest,rocky"⟩,
  ⟨"Lake Serene", "Gold Bar, WA", 13.2, 610, 3.5, 47.7828, -121.5644,
    "alpine_lake,waterfall,stairs"⟩]

/-- The `ExtractionSchema` pydantic model of `auto_planner_service.py`. -/
structure Extraction where
  is_planning_trip : Bool
  trail_name_raw : Option String := none
  target_date_str : Option String := none
deriving DecidableEq, Repr

/-- Python truthiness of an `Optional[str]`: `None` and `""` are falsy. -/
def truthyStr : Option String → Bool
  | none => false
  | some s => !(s = "")

/-- The keyword-gate trigger list of `AutoPlannerService.run_pipeline`. -/
def TRIGGERS : List String :=
  ["go to", "hike", "trail", "plan", "weekend", "saturday", "sunday", "trip",
   "join", "去", "爬山", "路线", "约"]

/-- Stage 1 (Gate) of the pipeline: `any(k in user_message.lower() for k in triggers)`. -/
def gatePasses (user_message : String) : Bool :=
  TRIGGERS.any (fun k => strContains (pyLower user_message) k)

/-- Stage 2 (`_extract_intent`): the whole LLM call (request, JSON parse and
schema validation) sits in one `try`, so any failure or malformed response
collapses to `ExtractionSchema(is_planning_trip=False)`; the oracle result
`none` models every such failure. -/
def extract_intent (llmResult : Option Extraction) : Extraction :=
  llmResult.getD ⟨false, none, none⟩

/-- The names `os.getenv` is called with anywhere in
`auto_planner_service.py` (only `OPENAI_API_KEY`, in
`AutoPlannerService.__init__`). -/
def autoPlannerEnvReads : List String := ["OPENAI_API_KEY"]

/-- Acceptance threshold of the primary (database) candidate source: the
literal in `if score > 70` of `_fuzzy_match_trail`. -/
def dbMatchThreshold : Nat := 70

/-- Acceptance threshold of the fallback (mock) candidate source: the
literal in `if score > 50` of `_fuzzy_match_trail`. -/
def mockMatchThreshold : Nat := 50

/-- The pair of acceptance thresholds used by `_fuzzy_match_trail`, as a
function of the process environment.  Translated from the source: the
comparisons use the integer literals 70 and 50 and no environment or other
configuration value is consulted, so the result ignores `_osEnv`. -/
def matchThresholds (_osEnv : String → Option String) : Nat × Nat :=
  (dbMatchThreshold, mockMatchThreshold)

/-- Python dict insertion (`d[k] = v`): replace in place if the key exists,
else append; models the insertion-ordered `dict` comprehension
`{t.name: t for t in trails}` built one element at a time. -/
def dictInsert (l : List (String × Trail)) (k : String) (v : Trail) :
    List (String × Trail) :=
  if l.any (fun p => p.1 = k) then
    l.map (fun p => if p.1 = k then (k, v) else p)
  else l ++ [(k, v)]

/-- The `choices = {t.name: t for t in trails}` dictionary. -/
def buildChoices (ts : List Trail) : List (String × Trail) :=
  ts.foldl (fun l t => dictInsert l t.name t) []

/-- Models `thefuzz.process.extractOne(query, keys)`: the `(key, score)`
pair maximising the scorer, first-seen key winning ties (Python `max`
returns the first maximal element); `none` on an empty candidate list. -/
def extractOne (scorer : String → String → Nat) (query : String) :
    List String → Option (String × Nat)
  | [] => none
  | k :: ks =>
    some (ks.foldl
      (fun best k2 => if scorer query k2 > best.2 then (k2, scorer query k2) else best)
      (k, scorer query k))

/-- Oracle bundle for one `AutoPlannerService.run_pipeline` run: the results
of the two generative-backend calls, the trail table visible to the
SQLAlchemy session, whether that query raises, the fuzzy scorer, the month
of `datetime.now()`, and whether the final raw-SQL INSERT succeeds. -/
structure PipelineEnv where
  intentResult : Option Extraction
  genResult : Option Json
  dbTrails : List Trail
  dbQueryFails : Bool
  scorer : String → String → Nat
  nowMonth : Nat
  dbInsertOk : Bool

/-- Attempt 1 of `_fuzzy_match_trail` ("真实数据库"): `none` when the query
raises, when the table is empty (`if all_trails:` falsy) or when the best
score is at or below the 70 threshold; otherwise the dictionary entry of the
best-scoring name. -/
def fuzzy_db_attempt (env : PipelineEnv) (raw_name : String) : Option Trail :=
  if env.dbQueryFails then none
  else
    match buildChoices env.dbTrails with
    | [] => none
    | cs =>
      match extractOne env.scorer raw_name (cs.map (·.1)) with
      | none => none
      | some (best, score) =>
        if score > dbMatchThreshold then
          ((cs.find? (fun p => p.1 = best)).map (·.2))
        else none

/-- Attempt 2 of `_fuzzy_match_trail` ("Mock Data (Fallback)"): the mock
dictionary with the looser 50 threshold. -/
def fuzzy_mock_attempt (env : PipelineEnv) (raw_name : String) : Option Trail :=
  match extractOne env.scorer raw_name ((buildChoices MOCK_TRAILS_DB).map (·.1)) with
  | none => none
  | some (best, score) =>
    if score > mockMatchThreshold then
      (((buildChoices MOCK_TRAILS_DB).find? (fun p => p.1 = best)).map (·.2))
    else none

/-- Stage 3 (`_fuzzy_match_trail`): try the database source first with the
stricter threshold, fall through to the mock source with the looser one,
`none` when both reject.  The `MockTrailObj` duck object of the source
carries exactly the mock record's fields, so both branches return `Trail`. -/
def fuzzy_match_trail (env : PipelineEnv) (raw_name : String) : Option Trail :=
  match fuzzy_db_attempt env raw_name with
  | some t => some t
  | none => fuzzy_mock_attempt env raw_name

/-- Day count per month, as accepted by `datetime.strptime`. -/
def daysInMonth (y m : Nat) : Nat :=
  if m = 2 then
    (if (y % 4 = 0 && !(y % 100 = 0)) || y % 400 = 0 then 29 else 28)
  else if [4, 6, 9, 11].contains m then 30 else 31

/-- Digit-only non-empty field of at most `maxLen` characters (what the
`%m`/`%d` directives of CPython `strptime` accept: one or two digits). -/
def isDigitField (l : List Char) (maxLen : Nat) : Bool :=
  !l.isEmpty && l.all Char.isDigit && l.length ≤ maxLen

/-- Models `datetime.strptime(s, "%Y-%m-%d").month`: `none` exactly when
strptime raises `ValueError`.  CPython's `%Y` matches exactly four digits,
`%m`/`%d` one or two; the `datetime` constructor then requires year ≥ 1,
month in 1..12 and a day valid for that month (leap years included). -/
def parseYMDMonth (s : String) : Option Nat :=
  match splitOnChar '-' s.data with
  | [ys, ms, ds] =>
    if (ys.all Char.isDigit && ys.length = 4) && isDigitField ms 2 &&
        isDigitField ds 2 then
      let y := charsToNat ys
      let m := charsToNat ms
      let d := charsToNat ds
      if 1 ≤ y && 1 ≤ m && m ≤ 12 && 1 ≤ d && d ≤ daysInMonth y m then some m
      else none
    else none
  | _ => none

/-- Boolean guard used in statements: the extracted date string either is
absent/empty (Python-falsy, so `datetime.now()` is used) or parses under
`%Y-%m-%d`. -/
def dateWellFormed : Option String → Bool
  | none => true
  | some s => (s = "") || (parseYMDMonth s).isSome

/-- Month of `hike_date_obj` in stage 4 of `run_pipeline`:
`strptime(target_date_str, "%Y-%m-%d") if target_date_str else datetime.now()`;
`none` models the uncaught `ValueError` of `strptime`. -/
def monthOf (nowMonth : Nat) : Option String → Option Nat
  | none => some nowMonth
  | some s => if s = "" then some nowMonth else parseYMDMonth s

/-- Stage 4 weather stub of `run_pipeline` (season-keyed mock string). -/
def weatherFor (month : Nat) : String :=
  if [11, 12, 1, 2, 3].contains month then "Cold, 2°C, Chance of Snow/Rain"
  else if [6, 7, 8, 9].contains month then "Sunny, 22°C, Clear Skies"
  else "Overcast, 12°C, Light Rain likely"

/-- The deterministic fallback payload of `_generate_final_json`, built from
the matched trail's fields alone. -/
def fallbackAnnouncement (trail : Trail) : Json :=
  Json.obj [
    ("title", Json.str ("Hike to " ++ trail.name)),
    ("summary", Json.str ("Let" ++ apos ++ "s go hiking!")),
    ("stats", Json.obj [
      ("dist", Json.str (pyFloatStr trail.length_km ++ "km")),
      ("elev", Json.str (toString trail.elevation_gain_m ++ "m"))]),
    ("weather_warning", Json.str "Check forecast."),
    ("gear_required", Json.arr [Json.str "Water", Json.str "Boots"]),
    ("fun_fact", Json.str "Hiking is good for you!")]

/-- Stage 5 (`_generate_final_json`): the trail facts, date and weather feed
only the prompt; the returned value is the backend's parsed JSON on success
and the deterministic fallback on any failure (the whole call body is one
`try`). -/
def generate_final_json (genResult : Option Json) (trail : Trail)
    (_date_str : Option String) (_weather : String) : Json :=
  genResult.getD (fallbackAnnouncement trail)

/-- One row of the Postgres `group_messages` table (schema in
`init_db.py`): `id SERIAL PRIMARY KEY` is one sequence shared by all
groups; `created_at` defaults to the commit time, modelled by the global
insertion index (commit order), which is strictly monotone. -/
structure Row where
  id : Nat
  group_id : String
  user_id : Option Nat
  sender_display : String
  role : String
  content : String
  created_at : Nat
deriving DecidableEq, Repr

/-- The `group_messages` table plus its id sequence (`SERIAL` starts at 1). -/
structure MessageStore where
  nextId : Nat
  rows : List Row
deriving DecidableEq, Repr

/-- Empty table, sequence at its start value. -/
def emptyStore : MessageStore := ⟨1, []⟩

/-- One committed `INSERT INTO group_messages ... RETURNING *`: assigns the
next sequence value and appends the row.  Each insert is one transaction
(`pg_db.get_cursor` commits per statement), so interleaved writers serialize
into some order of atomic inserts. -/
def MessageStore.insert (s : MessageStore) (gid : String) (uid : Option Nat)
    (sender role content : String) : Row × MessageStore :=
  let row : Row := ⟨s.nextId, gid, uid, sender, role, content, s.nextId⟩
  (row, ⟨s.nextId + 1, s.rows ++ [row]⟩)

/-- Rows of one group, in insertion order. -/
def MessageStore.roomRows (s : MessageStore) (gid : String) : List Row :=
  s.rows.filter (fun r => r.group_id = gid)

/-- Ids of one group's rows, in insertion order. -/
def MessageStore.roomIds (s : MessageStore) (gid : String) : List Nat :=
  (s.roomRows gid).map (·.id)

/-- Body of `social_router.list_group_messages` after the membership check:
`SELECT ... WHERE group_id = gid ORDER BY created_at DESC LIMIT limit`
followed by `rows.reverse()`.  With `created_at` strictly monotone in commit
order this is the last `limit` rows of the group in insertion order. -/
def list_group_messages (s : MessageStore) (gid : String) (limit : Nat) :
    List Row :=
  (((s.roomRows gid).reverse).take limit).reverse

/-- One `INSERT INTO group_messages (group_id, user_id, sender_display, role,
content) VALUES (gid, uid, sender, role, content)` request, for describing a
history of concurrent ingress writers as an interleaving of atomic inserts. -/
structure InsertOp where
  group_id : String
  user_id : Option Nat
  sender : String
  role : String
  content : String
deriving DecidableEq, Repr

/-- Replay a serialized history of insert operations. -/
def applyOps (s : MessageStore) (ops : List InsertOp) : MessageStore :=
  ops.foldl (fun st op => (st.insert op.group_id op.user_id op.sender op.role op.content).2) s

/-- Spec-side predicate (from the specification's words, for comparison with
the behaviour of the source): a gapless id list has each id exactly one more
than its predecessor. -/
def idsGapless : List Nat → Bool
  | a :: b :: t => (b = a + 1) && idsGapless (b :: t)
  | _ => true

/-- Observable actions of a loop iteration or pipeline run.  The
`schedulePipeline` constructor exists as vocabulary for the specification's
"asynchronously schedule the Observer Pipeline" step, so its absence from a
trace is expressible. -/
inductive Effect where
  | persistRow (row : Row) : Effect
  | broadcast (group_id : String) (payload : String) : Effect
  | schedulePipeline (group_id : String) (text : String) : Effect
deriving DecidableEq, Repr

/-- Discriminator: is this effect a pipeline-scheduling action? -/
def Effect.isSchedulePipeline : Effect → Bool
  | Effect.schedulePipeline _ _ => true
  | _ => false

/-- Discriminator: is this effect a room broadcast? -/
def Effect.isBroadcast : Effect → Bool
  | Effect.broadcast _ _ => true
  | _ => false

/-- Result of one pipeline run as seen by its caller. -/
inductive PipelineOutcome where
  | raised (msg : String) : PipelineOutcome
  | aborted : PipelineOutcome
  | posted (payload : Json) : PipelineOutcome
  | postFailed (payload : Json) : PipelineOutcome

/-- Stage 6 (`_post_announcement_to_db`): serialize the payload and insert it
as `sender_display='HikeBot', role='assistant', user_id=NULL`; the insert sits
in a `try`, so an insert failure is logged and swallowed (no row, no raise). -/
def post_announcement_to_db (dbInsertOk : Bool) (store : MessageStore)
    (chat_id : String) (content_json : Json) :
    PipelineOutcome × MessageStore × List Effect :=
  let content_str := Json.dumps content_json
  if dbInsertOk then
    let (row, store2) := store.insert chat_id none "HikeBot" "assistant" content_str
    (PipelineOutcome.posted content_json, store2, [Effect.persistRow row])
  else
    (PipelineOutcome.postFailed content_json, store, [])

/-- `AutoPlannerService.run_pipeline`: gate → intent extraction → fuzzy
grounding → date/weather → synthesis → commit, with the early exits and the
unguarded `strptime` call of the source (stage 4 raises `ValueError` on a
non-empty malformed `target_date_str`). -/
def run_pipeline (env : PipelineEnv) (store : MessageStore)
    (chat_id user_message : String) :
    PipelineOutcome × MessageStore × List Effect :=
  if !gatePasses user_message then (PipelineOutcome.aborted, store, [])
  else
    let extraction := extract_intent env.intentResult
    if !(extraction.is_planning_trip && truthyStr extraction.trail_name_raw) then
      (PipelineOutcome.aborted, store, [])
    else
      match fuzzy_match_trail env (extraction.trail_name_raw.getD "") with
      | none => (PipelineOutcome.aborted, store, [])
      | some trail_record =>
        match monthOf env.nowMonth extraction.target_date_str with
        | none =>
          (PipelineOutcome.raised "ValueError: time data does not match format", store, [])
        | some month =>
          let weather_info := weatherFor month
          let announcement_json :=
            generate_final_json env.genResult trail_record
              extraction.target_date_str weather_info
          post_announcement_to_db env.dbInsertOk store chat_id announcement_json

/-- One room's live connections: `(user_id, websocket handle)` in dict
insertion order; a websocket is an opaque handle identifier. -/
abbrev Room := List (Nat × Nat)

/-- The `GroupConnectionManager` of `app.py`: `rooms[group_id][user_id] = ws`.
Both dict levels are insertion-ordered association lists with unique keys
maintained by the operations below. -/
structure GroupConnectionManager where
  rooms : List (String × Room)
deriving DecidableEq, Repr

/-- Connections currently registered for a room (`rooms.get(group_id)`,
empty when absent). -/
def GroupConnectionManager.roomSnapshot (m : GroupConnectionManager)
    (gid : String) : Room :=
  ((m.rooms.find? (fun p => p.1 = gid)).map (·.2)).getD []

/-- Python dict update at the inner level (`room[uid] = ws`). -/
def roomUpdate (r : Room) (uid ws : Nat) : Room :=
  if r.any (fun q => q.1 = uid) then
    r.map (fun q => if q.1 = uid then (uid, ws) else q)
  else r ++ [(uid, ws)]

/-- `GroupConnectionManager.connect`: `rooms.setdefault(group_id, {})` then
`rooms[group_id][user_id] = websocket` (a reconnecting user replaces the
prior handle in place). -/
def GroupConnectionManager.connect (m : GroupConnectionManager)
    (gid : String) (uid ws : Nat) : GroupConnectionManager :=
  if m.rooms.any (fun p => p.1 = gid) then
    ⟨m.rooms.map (fun p => if p.1 = gid then (gid, roomUpdate p.2 uid ws) else p)⟩
  else ⟨m.rooms ++ [(gid, [(uid, ws)])]⟩

/-- `GroupConnectionManager.disconnect`: delete the user's entry if present
and drop the room key when it empties.  `del d[k]` on the unique-key dict is
modelled by filtering the association list. -/
def GroupConnectionManager.disconnect (m : GroupConnectionManager)
    (gid : String) (uid : Nat) : GroupConnectionManager :=
  match (m.rooms.find? (fun p => p.1 = gid)).map (·.2) with
  | none => m
  | some r =>
    if r.any (fun q => q.1 = uid) then
      let r2 := r.filter (fun q => !(q.1 = uid))
      if r2.isEmpty then ⟨m.rooms.filter (fun p => !(p.1 = gid))⟩
      else ⟨m.rooms.map (fun p => if p.1 = gid then (gid, r2) else p)⟩
    else m

/-- Outcome of `GroupConnectionManager.broadcast_json`: how many times
`json.dumps` ran, the `(user_id, data)` sends attempted, and the manager
state after dead connections were disconnected. -/
structure BroadcastResult where
  serializations : Nat
  attempts : List (Nat × String)
  manager : GroupConnectionManager

/-- `GroupConnectionManager.broadcast_json`: serialize once, snapshot the
room (`list(room.items())`), attempt `send_text` on every member, collect
the members whose send raised (`except RuntimeError`) and disconnect them
afterwards.  `sendOk ws` tells whether `send_text` on handle `ws` succeeds. -/
def GroupConnectionManager.broadcast_json (m : GroupConnectionManager)
    (sendOk : Nat → Bool) (gid : String) (message : Json) : BroadcastResult :=
  let data := Json.dumps message
  match (m.rooms.find? (fun p => p.1 = gid)).map (·.2) with
  | none => ⟨1, [], m⟩
  | some room =>
    let attempts := room.map (fun p => (p.1, data))
    let dead := (room.filter (fun p => !(sendOk p.2))).map (·.1)
    ⟨1, attempts, dead.foldl (fun acc uid => acc.disconnect gid uid) m⟩

/-- The wire unit built by `group_ws` from the row the INSERT returned. -/
def rowToWireMsg (row : Row) : Json :=
  Json.obj [
    ("id", Json.num row.id),
    ("group_id", Json.str row.group_id),
    ("sender", Json.str row.sender_display),
    ("role", Json.str row.role),
    ("content", Json.str row.content),
    ("created_at", Json.str (toString row.created_at))]

/-- One iteration of the `group_ws` ingress loop body for one received text
unit: persist it as a `'user'`-role row (the INSERT assigns the id), build
the wire message from the returned row, broadcast it to the room.  The trace
records exactly the actions the source performs. -/
def group_ws_step (store : MessageStore) (mgr : GroupConnectionManager)
    (sendOk : Nat → Bool) (group_id : String) (userId : Nat)
    (username text : String) :
    MessageStore × GroupConnectionManager × List Effect :=
  let (row, store2) := store.insert group_id (some userId) username "user" text
  let wire := rowToWireMsg row
  let br := mgr.broadcast_json sendOk group_id wire
  (store2, br.manager, [Effect.persistRow row, Effect.broadcast group_id (Json.dumps wire)])

/-- Python exception classes observed by the claims about `db.py`. -/
inductive PyErr where
  | attributeError (attr : String) : PyErr
  | validationError (model : String) (missing : List String) : PyErr
deriving DecidableEq, Repr

/-- The pydantic `Route` model of `models.py` (fields used by `db.py`). -/
structure Route where
  id : String
  name : String
  location : String
  distance_km : Rat
  elevation_gain_m : Int
  difficulty : String
  drive_time_min : Int
  summary : Option String := none
deriving DecidableEq, Repr

/-- The pydantic `GearRequest` model of `models.py` — note it declares
`season, hours, altitude_band, terrain, distance_km, elevation_gain_m,
group_size` and nothing else (no `difficulty`, no `has_water`). -/
structure GearRequest where
  season : String
  hours : Rat
  altitude_band : String := "low"
  terrain : List String := []
  distance_km : Option Rat := none
  elevation_gain_m : Option Int := none
  group_size : Int := 1
deriving DecidableEq, Repr

/-- The pydantic `GearChecklist` model of `models.py`: `items`,
`water_liters` and `calories_kcal` are required fields, `notes` optional. -/
structure GearChecklist where
  items : List String
  water_liters : Rat
  calories_kcal : Int
  notes : Option String := none
deriving DecidableEq, Repr

/-- Keyword arguments supplied to the `GearChecklist(...)` constructor at
some call site. -/
structure GearChecklistInit where
  items : Option (List String) := none
  water_liters : Option Rat := none
  calories_kcal : Option Int := none
  notes : Option String := none

/-- Pydantic validation of a `GearChecklist(...)` construction: a missing
required field raises a `ValidationError` naming the missing fields. -/
def GearChecklist.validate (i : GearChecklistInit) : Except PyErr GearChecklist :=
  match i.items, i.water_liters, i.calories_kcal with
  | some its, some w, some c => Except.ok ⟨its, w, c, i.notes⟩
  | _, _, _ =>
    Except.error (PyErr.validationError "GearChecklist"
      ((if i.items.isNone then ["items"] else []) ++
       (if i.water_liters.isNone then ["water_liters"] else []) ++
       (if i.calories_kcal.isNone then ["calories_kcal"] else [])))

/-- `db.build_gear_checklist`: after assembling the base item list and
lowercasing the season, the source reads `req.difficulty` — a field
`GearRequest` does not declare — so the pydantic attribute lookup raises
`AttributeError` before any further logic (and before the final
`GearChecklist(items=items)` construction) runs. -/
def build_gear_checklist (req : GearRequest) : Except PyErr GearChecklist :=
  let _items : List String :=
    ["Backpack", "Water (at least 1.5–2L per person)", "Snacks / light lunch",
     "Phone with charged battery", "Basic first-aid kit"]
  let _season := pyLower req.season
  Except.error (PyErr.attributeError "difficulty")

/-- Route-question keywords of `handle_chat` (checked first). -/
def ROUTE_WORDS : List String :=
  ["trail", "route", "hike", "where should we go", "去哪", "路线", "哪条"]

/-- Gear keywords of `handle_chat` (checked second). -/
def GEAR_WORDS : List String := ["gear", "pack", "bring", "背什么", "带什么", "装备"]

/-- Weather keywords of `handle_chat` (checked third). -/
def WEATHER_WORDS : List String := ["weather", "forecast", "下雨", "雷电", "风大"]

/-- Python `f"{q:.1f}"` for the one-decimal rationals of the seed routes. -/
def fmtFixed1 (q : Rat) : String := pyFloatStr q

/-- One bullet of the route-recommendation reply of `handle_chat`. -/
def routeBullet (idx : Nat) (route : Route) : String :=
  let dist := fmtFixed1 route.distance_km
  s!"{idx}. **{route.name}** near {route.location}\n   - {dist} km / {route.elevation_gain_m} m gain / {route.difficulty} difficulty\n   - Drive time ≈ {route.drive_time_min} minutes\n   - Group ID: `{route.id}`"

/-- The route-recommendation reply of `handle_chat` (branch 1). -/
def routeReply (routes : List Route) : String :=
  let recommendations := routes.take 3
  if recommendations.isEmpty then
    "I tried to find a route but I don" ++ apos ++ "t have any routes in my database yet."
  else
    let bullets := (recommendations.enum).map (fun p => routeBullet (p.1 + 1) p.2)
    "Here are a few trails you might like:\n\n" ++
      String.intercalate "\n\n" bullets ++
      "\n\nUse the **Trail Groups** panel or the buttons below the chat to join the group for a trail you like."

/-- The gear reply of `handle_chat` (branch 2, only reachable if the
checklist construction returned). -/
def gearReply (checklist : GearChecklist) : String :=
  let lines := String.intercalate "\n" (checklist.items.map (fun item => "- " ++ item))
  "Here" ++ apos ++ "s a basic packing checklist for a typical day hike:\n\n" ++
    lines ++ "\n\nAlways adjust for your specific route, weather, and group experience."

/-- The weather reply of `handle_chat` (branch 3). -/
def weatherReply : String :=
  "For detailed weather, use the **Weather Snapshot** panel on the right:\n1. Pick a route.\n2. Choose your start date & time.\n3. Click *Get forecast* to see temperature, rain probability, and safety notes.\n"

/-- The fallback self-introduction reply of `handle_chat` (branch 4). -/
def defaultReply : String :=
  "I" ++ apos ++ "m HikeBot 🥾. I can help your group with:\n- Suggesting a trail (try: *Where should we hike this weekend?*)\n- Packing lists (try: *What gear do we need?*)\n- Weather safety (try: *How" ++ apos ++ "s the weather for hiking?*)\n"

/-- The `GearRequest(...)` literal built inside the gear branch of
`handle_chat` (a summer 5-hour mid-altitude day hike). -/
def gearDemoRequest : GearRequest :=
  ⟨"summer", 5, "mid", ["dry"], some 10.0, some 600, 3⟩

/-- `db.handle_chat`: strip, then try the route / gear / weather keyword
branches in that order, else the fallback introduction.  The gear branch
calls `build_gear_checklist`, whose exception propagates to the caller. -/
def handle_chat (routes : List Route) (user_message : String) :
    Except PyErr String :=
  let text := pyStrip user_message
  let lower := pyLower text
  if text = "" then
    Except.ok ("I didn" ++ apos ++ "t catch that. Try asking about trails, weather, or gear 🙂")
  else if ROUTE_WORDS.any (fun w => strContains lower w) then
    Except.ok (routeReply routes)
  else if GEAR_WORDS.any (fun w => strContains lower w) then
    match build_gear_checklist gearDemoRequest with
    | Except.error e => Except.error e
    | Except.ok checklist => Except.ok (gearReply checklist)
  else if WEATHER_WORDS.any (fun w => strContains lower w) then
    Except.ok weatherReply
  else
    Except.ok defaultReply

/-- The `SEED_MEMBERS` constant of `db.py`. -/
def SEED_MEMBERS : List String := ["Trip Leader", "Alice", "Bob"]

/-- Member-list transformation of `db.leave_route_group`: drop the leaver
(case-insensitively), then walk `SEED_MEMBERS` re-inserting every seed that
is now missing at index 0. -/
def leave_route_group_update (members : List String) (normalized : String) :
    List String :=
  let remaining := members.filter (fun m => !(pyLower m = pyLower normalized))
  SEED_MEMBERS.foldl
    (fun rem seed => if rem.contains seed then rem else seed :: rem) remaining

/-- `db.leave_route_group`: resolve the route (ValueError when unknown),
require a non-blank username, look up the group's member list (empty when
unset) and apply the member-list transformation; the result is both returned
and stored back into `GROUP_MEMBERS[route.id]`. -/
def leave_route_group (routeIds : List String)
    (groupMembers : List (String × List String)) (route_id username : String) :
    Except String (List String) :=
  if !(routeIds.contains route_id) then
    Except.error ("Route " ++ route_id ++ " not found")
  else if pyStrip username = "" then
    Except.error "Username is required to leave a group."
  else
    Except.ok (leave_route_group_update
      (((groupMembers.find? (fun p => p.1 = route_id)).map (·.2)).getD [])
      (pyStrip username))

/-! ### Registry lemmas -/

/-- Updating the room stored under `gid` in place commutes with the key
lookup. -/
theorem find?_map_update (rs : List (String × Room)) (gid : String) (r2 : Room) :
    (rs.map (fun p => if p.1 = gid then (gid, r2) else p)).find? (fun p => p.1 = gid) =
      (rs.find? (fun p => p.1 = gid)).map (fun _ => (gid, r2)) := by
  induction rs with
  | nil => rfl
  | cons p t ih =>
    by_cases hp : p.1 = gid
    · simp [List.find?_cons, hp]
    · simp [List.find?_cons, hp, ih]

/-- Deleting the key `gid` makes the lookup fail. -/
theorem find?_filter_ne (rs : List (String × Room)) (gid : String) :
    (rs.filter (fun p => !(p.1 = gid))).find? (fun p => p.1 = gid) = none := by
  apply List.find?_eq_none.mpr
  intro p hp
  have := (List.mem_filter.mp hp).2
  simpa using this

/-- `disconnect` acts on the snapshot of the affected room by removing the
entries of the leaving user, and nothing else. -/
theorem disconnect_roomSnapshot (m : GroupConnectionManager) (gid : String) (uid : Nat) :
    (m.disconnect gid uid).roomSnapshot gid =
      (m.roomSnapshot gid).filter (fun q => !(q.1 = uid)) := by
  unfold GroupConnectionManager.disconnect GroupConnectionManager.roomSnapshot
  cases hf : m.rooms.find? (fun p => p.1 = gid) with
  | none => simp [hf]
  | some pr =>
    simp only [hf, Option.map, Option.getD_some]
    by_cases hany : (pr.2.any fun q => decide (q.1 = uid)) = true
    · rw [if_pos hany]
      by_cases hemp : (List.filter (fun q => !decide (q.1 = uid)) pr.2).isEmpty = true
      · rw [if_pos hemp]
        rw [show ({ rooms := List.filter (fun p => !decide (p.1 = gid)) m.rooms } : GroupConnectionManager).rooms = List.filter (fun p => !decide (p.1 = gid)) m.rooms from rfl]
        rw [find?_filter_ne]
        simp [List.isEmpty_iff.mp hemp]
      · rw [if_neg hemp]
        rw [show (∀ rooms : List (String × Room), ({ rooms := rooms } : GroupConnectionManager).rooms = rooms) from fun _ => rfl]
        rw [find?_map_update, hf]
        rfl
    · rw [if_neg hany]
      simp only [hf, Option.map_some, Option.getD_some]
      have hnone : ∀ q ∈ pr.2, ¬(q.1 = uid) := by
        intro q hq
        by_contra hc
        exact hany (List.any_eq_true.mpr ⟨q, hq, by simpa using hc⟩)
      rw [List.filter_eq_self.mpr]
      intro q hq
      simpa using hnone q hq

/-- Folding `disconnect` over a list of leavers filters them all out of the
room snapshot. -/
theorem foldl_disconnect_roomSnapshot (ds : List Nat) (m : GroupConnectionManager) (gid : String) :
    (ds.foldl (fun acc uid => acc.disconnect gid uid) m).roomSnapshot gid =
      (m.roomSnapshot gid).filter (fun q => !(ds.contains q.1)) := by
  induction ds generalizing m with
  | nil => simp
  | cons d t ih =>
    rw [List.foldl_cons, ih, disconnect_roomSnapshot, List.filter_filter]
    apply List.filter_congr
    intro q _
    by_cases h1 : q.1 = d <;> by_cases h2 : t.contains q.1 <;>
      simp [h1, h2, List.contains_cons]

/-! ### Claims -/

/-- C1 (amended): for every inbound text unit, the `group_ws` ingress loop
body persists it as a `'user'`-role message (the store assigns the canonical
id `store.nextId`) and then broadcasts the persisted message to the room —
but it schedules no Observer Pipeline: the trace consists of exactly the
persist and the broadcast, with no `schedulePipeline` action
(`AutoPlannerService.run_pipeline` has no caller in the ingress loop, nor
anywhere else). -/
theorem claim_C1 (store : MessageStore) (mgr : GroupConnectionManager)
    (sendOk : Nat → Bool) (gid : String) (uid : Nat) (username text : String) :
    ∃ row : Row,
      (group_ws_step store mgr sendOk gid uid username text).1 =
        ⟨store.nextId + 1, store.rows ++ [row]⟩ ∧
      row.role = "user" ∧ row.id = store.nextId ∧ row.user_id = some uid ∧
      row.sender_display = username ∧ row.content = text ∧
      (group_ws_step store mgr sendOk gid uid username text).2.2 =
        [Effect.persistRow row, Effect.broadcast gid (Json.dumps (rowToWireMsg row))] ∧
      ((group_ws_step store mgr sendOk gid uid username text).2.2).all
        (fun e => !e.isSchedulePipeline) = true := by
  exact ⟨⟨store.nextId, gid, some uid, username, "user", text, store.nextId⟩,
    rfl, rfl, rfl, rfl, rfl, rfl, rfl, rfl⟩

/-- Demo registry state for the C1 counterexample: one room with two live
connections. -/
def demoMgrC1 : GroupConnectionManager := ⟨[("g1", [(7, 70), (8, 80)])]⟩

/-- C1 counterexample: on a concrete inbound unit the ingress loop's trace is
exactly the persist followed by the broadcast — two actions, neither of which
is a `schedulePipeline` — refuting the claim's final step ("asynchronously
schedules the Observer Pipeline for that message"). -/
theorem claim_C1_counterexample :
    (group_ws_step emptyStore demoMgrC1 (fun _ => true) "g1" 7 "ann" "let us hike").2.2.length = 2 ∧
    ((group_ws_step emptyStore demoMgrC1 (fun _ => true) "g1" 7 "ann" "let us hike").2.2).all
      (fun e => !e.isSchedulePipeline) = true := by
  exact ⟨rfl, rfl⟩

/-- C2: `broadcast_json` serializes the message exactly once, attempts
delivery to exactly the set of connections registered for the room at call
time (in registry order, every member receiving the same serialized data —
one member's failure never prevents another's delivery), and each connection
whose send fails is implicitly disconnected from the room while every
successfully reached connection stays registered. -/
theorem claim_C2 (m : GroupConnectionManager) (sendOk : Nat → Bool)
    (gid : String) (message : Json)
    (hnodup : ((m.roomSnapshot gid).map Prod.fst).Nodup) :
    (m.broadcast_json sendOk gid message).serializations = 1 ∧
    (m.broadcast_json sendOk gid message).attempts.map Prod.fst =
      (m.roomSnapshot gid).map Prod.fst ∧
    (∀ p ∈ m.roomSnapshot gid,
      (p.1, Json.dumps message) ∈ (m.broadcast_json sendOk gid message).attempts) ∧
    (∀ p ∈ m.roomSnapshot gid, sendOk p.2 = false →
      p.1 ∉ (((m.broadcast_json sendOk gid message).manager.roomSnapshot gid).map Prod.fst)) ∧
    (∀ p ∈ m.roomSnapshot gid, sendOk p.2 = true →
      p ∈ (m.broadcast_json sendOk gid message).manager.roomSnapshot gid) := by
  unfold GroupConnectionManager.broadcast_json
  cases hf : m.rooms.find? (fun p => p.1 = gid) with
  | none =>
    have hsnap : m.roomSnapshot gid = [] := by
      unfold GroupConnectionManager.roomSnapshot
      rw [hf]
      rfl
    simp [hf, hsnap]
  | some pr =>
    have hsnap : m.roomSnapshot gid = pr.2 := by
      unfold GroupConnectionManager.roomSnapshot
      rw [hf]
      rfl
    simp only [hf, Option.map, Option.getD_some, hsnap]
    refine ⟨by simp, by simp, ?_, ?_, ?_⟩
    · intro p hp
      exact List.mem_map.mpr ⟨p, hp, rfl⟩
    · intro p hp hfail
      rw [foldl_disconnect_roomSnapshot, hsnap]
      intro hmem
      obtain ⟨q, hq, hq1⟩ := List.mem_map.mp hmem
      have hqkeep := (List.mem_filter.mp hq).2
      have hpdead : p.1 ∈ (List.filter (fun p => !sendOk p.2) pr.2).map (fun x => x.1) :=
        List.mem_map.mpr ⟨p, List.mem_filter.mpr ⟨hp, by simp [hfail]⟩, rfl⟩
      rw [hq1] at hqkeep
      simp only [Bool.not_eq_true'] at hqkeep
      have hnotmem : p.1 ∉ (List.filter (fun p => !sendOk p.2) pr.2).map (fun x => x.1) := by
        simpa using hqkeep
      exact hnotmem hpdead
    · intro p hp hok
      rw [foldl_disconnect_roomSnapshot, hsnap]
      apply List.mem_filter.mpr
      refine ⟨hp, ?_⟩
      simp only [Bool.not_eq_true']
      have hnotmem : p.1 ∉ (List.filter (fun p => !sendOk p.2) pr.2).map (fun x => x.1) := by
        intro hmem
        obtain ⟨q, hq, hq1⟩ := List.mem_map.mp hmem
        have hqin := (List.mem_filter.mp hq).1
        have hqfail := (List.mem_filter.mp hq).2
        have hqp : q = p := by
          rw [hsnap] at hnodup
          exact List.inj_on_of_nodup_map hnodup hqin hp hq1
        rw [hqp] at hqfail
        simp [hok] at hqfail
      simpa using hnotmem

/-- Demo registry state for the C2 witness: one room with three live
connections with distinct user ids. -/
def demoMgrC2 : GroupConnectionManager := ⟨[("g1", [(1, 10), (2, 11), (3, 12)])]⟩

/-- C2 witness: the theorem applied to a concrete room whose member-id list
is duplicate-free. -/
theorem claim_C2_witness :
    ((demoMgrC2.roomSnapshot "g1").map Prod.fst).Nodup ∧
    ((demoMgrC2.broadcast_json (fun ws => !(ws = 11)) "g1" (Json.str "hello")).serializations = 1 ∧
     (demoMgrC2.broadcast_json (fun ws => !(ws = 11)) "g1" (Json.str "hello")).attempts.map Prod.fst =
       (demoMgrC2.roomSnapshot "g1").map Prod.fst ∧
     (∀ p ∈ demoMgrC2.roomSnapshot "g1",
       (p.1, Json.dumps (Json.str "hello")) ∈
         (demoMgrC2.broadcast_json (fun ws => !(ws = 11)) "g1" (Json.str "hello")).attempts) ∧
     (∀ p ∈ demoMgrC2.roomSnapshot "g1", (fun ws => !(ws = 11)) p.2 = false →
       p.1 ∉ (((demoMgrC2.broadcast_json (fun ws => !(ws = 11)) "g1" (Json.str "hello")).manager.roomSnapshot "g1").map Prod.fst)) ∧
     (∀ p ∈ demoMgrC2.roomSnapshot "g1", (fun ws => !(ws = 11)) p.2 = true →
       p ∈ (demoMgrC2.broadcast_json (fun ws => !(ws = 11)) "g1" (Json.str "hello")).manager.roomSnapshot "g1")) :=
  ⟨by decide, claim_C2 demoMgrC2 (fun ws => !(ws = 11)) "g1" (Json.str "hello") (by decide)⟩

/-- A well-formed-or-absent extracted date never makes stage 4 raise. -/
theorem monthOf_isSome (now : Nat) (d : Option String)
    (h : dateWellFormed d = true) : ∃ m, monthOf now d = some m := by
  cases d with
  | none => exact ⟨now, rfl⟩
  | some s =>
    by_cases hs : s = ""
    · exact ⟨now, by simp [monthOf, hs]⟩
    · have hp : (parseYMDMonth s).isSome = true := by
        simpa [dateWellFormed, hs] using h
      obtain ⟨m, hm⟩ := Option.isSome_iff_exists.mp hp
      exact ⟨m, by simp [monthOf, hs, hm]⟩

/-- Scorer used by the concrete pipeline demos: 80/100 when the query occurs
(case-insensitively) inside the candidate, 10/100 otherwise. -/
def demoScorer : String → String → Nat :=
  fun q c => if strContains (pyLower c) (pyLower q) then 80 else 10

/-- Oracle bundle for the C3 witness: same run but the extracted date is a
well-formed `%Y-%m-%d` string. -/
def envW3 : PipelineEnv :=
  ⟨some ⟨true, some "Mailbox", some "2025-06-07"⟩, none, [], false, demoScorer, 6, true⟩

/-- C7: an inbound message whose lowercased text contains none of the
trigger phrases aborts at the Gate: the run produces no system message, the
store is untouched and no action is taken. -/
theorem claim_C7 (env : PipelineEnv) (store : MessageStore)
    (chat_id user_message : String)
    (h : gatePasses user_message = false) :
    run_pipeline env store chat_id user_message =
      (PipelineOutcome.aborted, store, []) := by
  unfold run_pipeline
  simp [h]

/-- C7 witness: `"nice weather today"` matches no trigger phrase and
produces zero system messages. -/
theorem claim_C7_witness :
    gatePasses "nice weather today" = false ∧
    run_pipeline envW3 emptyStore "g1" "nice weather today" =
      (PipelineOutcome.aborted, emptyStore, []) :=
  ⟨by decide, claim_C7 envW3 emptyStore "g1" "nice weather today" (by decide)⟩

/-- Shared commit lemma: a run that passes the gate, extracts a planning
intent with a truthy subject, grounds successfully, has a well-formed (or
absent) date and a succeeding final insert, persists exactly one
`'assistant'`-role, author-less, `'HikeBot'`-sent row whose content is the
serialized synthesis result, and its trace is that single persist action. -/
theorem run_pipeline_commit (env : PipelineEnv) (store : MessageStore)
    (chat_id user_message : String) (ex : Extraction) (trail : Trail)
    (hgate : gatePasses user_message = true)
    (hint : env.intentResult = some ex)
    (hplan : ex.is_planning_trip = true)
    (hname : truthyStr ex.trail_name_raw = true)
    (hmatch : fuzzy_match_trail env (ex.trail_name_raw.getD "") = some trail)
    (hdate : dateWellFormed ex.target_date_str = true)
    (hdb : env.dbInsertOk = true) :
    ∃ row : Row,
      run_pipeline env store chat_id user_message =
        (PipelineOutcome.posted (env.genResult.getD (fallbackAnnouncement trail)),
         ⟨store.nextId + 1, store.rows ++ [row]⟩,
         [Effect.persistRow row]) ∧
      row.role = "assistant" ∧ row.user_id = none ∧
      row.sender_display = "HikeBot" ∧ row.group_id = chat_id ∧
      row.content = Json.dumps (env.genResult.getD (fallbackAnnouncement trail)) ∧
      ([Effect.persistRow row].all (fun e => !e.isBroadcast)) = true := by
  obtain ⟨mo, hmo⟩ := monthOf_isSome env.nowMonth ex.target_date_str hdate
  refine ⟨⟨store.nextId, chat_id, none, "HikeBot", "assistant",
    Json.dumps (env.genResult.getD (fallbackAnnouncement trail)), store.nextId⟩,
    ?_, rfl, rfl, rfl, rfl, rfl, rfl⟩
  unfold run_pipeline
  simp only [hgate, Bool.not_true, Bool.false_eq_true, if_false, extract_intent,
    hint, Option.getD_some, hplan, hname, Bool.and_self, Bool.not_true,
    Bool.false_eq_true, if_false, hmatch, hmo]
  unfold post_announcement_to_db generate_final_json
  simp [hdb, MessageStore.insert]

/-- C4 (amended): every pipeline run that reaches synthesis serializes the
structured payload and persists it as an `'assistant'`-role message with an
empty (NULL) author reference and sender `'HikeBot'` — but the commit step
does not broadcast: the run's trace holds the single persist action and no
`broadcast` action (delivery to connected clients happens only through
subsequent reads of the message store). -/
theorem claim_C4 (env : PipelineEnv) (store : MessageStore)
    (chat_id user_message : String) (ex : Extraction) (trail : Trail)
    (hgate : gatePasses user_message = true)
    (hint : env.intentResult = some ex)
    (hplan : ex.is_planning_trip = true)
    (hname : truthyStr ex.trail_name_raw = true)
    (hmatch : fuzzy_match_trail env (ex.trail_name_raw.getD "") = some trail)
    (hdate : dateWellFormed ex.target_date_str = true)
    (hdb : env.dbInsertOk = true) :
    ∃ row : Row,
      run_pipeline env store chat_id user_message =
        (PipelineOutcome.posted (env.genResult.getD (fallbackAnnouncement trail)),
         ⟨store.nextId + 1, store.rows ++ [row]⟩,
         [Effect.persistRow row]) ∧
      row.role = "assistant" ∧ row.user_id = none ∧
      row.sender_display = "HikeBot" ∧ row.group_id = chat_id ∧
      row.content = Json.dumps (env.genResult.getD (fallbackAnnouncement trail)) ∧
      ([Effect.persistRow row].all (fun e => !e.isBroadcast)) = true :=
  run_pipeline_commit env store chat_id user_message ex trail hgate hint hplan
    hname hmatch hdate hdb

/-- Oracle bundle for the C4 witness and counterexample: a fully successful
run whose synthesis call returns a payload. -/
def envC4 : PipelineEnv :=
  ⟨some ⟨true, some "Mailbox", some "2025-06-07"⟩,
   some (Json.obj [("title", Json.str "Trip!")]), [], false, demoScorer, 6, true⟩

/-- The Mailbox Peak record of the mock candidate source. -/
def mailboxPeak : Trail :=
  ⟨"Mailbox Peak", "North Bend, WA", 15.1, 1219, 5.0, 47.4665, -121.6749,
    "steep,mailbox_at_top,views"⟩

/-- C4 witness: the amended commit theorem applied to a concrete successful
run. -/
theorem claim_C4_witness :
    (gatePasses "let us go hike" = true ∧
     envC4.intentResult = some ⟨true, some "Mailbox", some "2025-06-07"⟩ ∧
     fuzzy_match_trail envC4 "Mailbox" = some mailboxPeak ∧
     envC4.dbInsertOk = true) ∧
    (∃ row : Row,
      run_pipeline envC4 emptyStore "g1" "let us go hike" =
        (PipelineOutcome.posted (envC4.genResult.getD (fallbackAnnouncement mailboxPeak)),
         ⟨emptyStore.nextId + 1, emptyStore.rows ++ [row]⟩,
         [Effect.persistRow row]) ∧
      row.role = "assistant" ∧ row.user_id = none ∧
      row.sender_display = "HikeBot" ∧ row.group_id = "g1" ∧
      row.content = Json.dumps (envC4.genResult.getD (fallbackAnnouncement mailboxPeak)) ∧
      ([Effect.persistRow row].all (fun e => !e.isBroadcast)) = true) :=
  ⟨⟨by decide, rfl, rfl, rfl⟩,
   claim_C4 envC4 emptyStore "g1" "let us go hike" ⟨true, some "Mailbox", some "2025-06-07"⟩
     mailboxPeak (by decide) rfl rfl (by decide) rfl (by decide) rfl⟩

/-- C4 counterexample: a concrete run that reaches the commit step (its
outcome is `posted`) whose trace contains no `broadcast` action — refuting
"is then broadcast to the room via the room registry". -/
theorem claim_C4_counterexample :
    (run_pipeline envC4 emptyStore "g1" "let us plan a trip").1 =
      PipelineOutcome.posted (Json.obj [("title", Json.str "Trip!")]) ∧
    ((run_pipeline envC4 emptyStore "g1" "let us plan a trip").2.2).all
      (fun e => !e.isBroadcast) = true := by
  exact ⟨rfl, rfl⟩

/-- An accepted database match (score strictly above the 70 threshold) is
returned by attempt 1. -/
theorem db_attempt_accept (env : PipelineEnv) (raw : String)
    (best : String) (score : Nat) (trail : Trail)
    (hfail : env.dbQueryFails = false)
    (hext : extractOne env.scorer raw ((buildChoices env.dbTrails).map (·.1)) = some (best, score))
    (hscore : score > dbMatchThreshold)
    (hfind : ((buildChoices env.dbTrails).find? (fun p => p.1 = best)).map (·.2) = some trail) :
    fuzzy_db_attempt env raw = some trail := by
  unfold fuzzy_db_attempt
  rw [hfail]
  simp only [Bool.false_eq_true, if_false]
  cases hbc : buildChoices env.dbTrails with
  | nil => rw [hbc] at hext; exact Option.noConfusion hext
  | cons c cs =>
    rw [hbc] at hext hfind
    simp only [hext, if_pos hscore]
    exact hfind

/-- When every database best-match score is at or below the 70 threshold (in
particular when the table is empty or the query raises), attempt 1 rejects. -/
theorem db_attempt_reject (env : PipelineEnv) (raw : String)
    (hdbrej : ∀ best score,
      extractOne env.scorer raw ((buildChoices env.dbTrails).map (·.1)) = some (best, score) →
      score ≤ dbMatchThreshold) :
    fuzzy_db_attempt env raw = none := by
  unfold fuzzy_db_attempt
  by_cases hqf : env.dbQueryFails = true
  · rw [hqf]
    simp
  · simp only [Bool.not_eq_true] at hqf
    rw [hqf]
    simp only [Bool.false_eq_true, if_false]
    cases hbc : buildChoices env.dbTrails with
    | nil => rfl
    | cons c cs =>
      cases hext : extractOne env.scorer raw ((c :: cs).map (·.1)) with
      | none => simp only [hext]
      | some bs =>
        have hle : bs.2 ≤ dbMatchThreshold := by
          apply hdbrej bs.1 bs.2
          rw [hbc, hext]
        cases bs with
        | mk b s =>
          simp only [hext, if_neg (Nat.not_lt.mpr hle)]

/-- When every mock best-match score is at or below the 50 threshold,
attempt 2 rejects. -/
theorem mock_attempt_reject (env : PipelineEnv) (raw : String)
    (hmockrej : ∀ best score,
      extractOne env.scorer raw ((buildChoices MOCK_TRAILS_DB).map (·.1)) = some (best, score) →
      score ≤ mockMatchThreshold) :
    fuzzy_mock_attempt env raw = none := by
  unfold fuzzy_mock_attempt
  cases hext : extractOne env.scorer raw ((buildChoices MOCK_TRAILS_DB).map (·.1)) with
  | none => simp only [hext]
  | some bs =>
    have hle : bs.2 ≤ mockMatchThreshold := hmockrej bs.1 bs.2 hext
    cases bs with
    | mk b s =>
      simp only [hext, if_neg (Nat.not_lt.mpr hle)]

/-- C5 (amended): grounding uses the stricter threshold 70/100 for the
database source, tried first, and the looser 50/100 for the mock fallback
source, tried second; a best-match score at or below the applicable
threshold rejects that source's match, and when both sources reject, the
run aborts with no output.  The thresholds, however, are the hard-coded
integer literals 70 and 50 — not configuration (see the counterexample). -/
theorem claim_C5 (env : PipelineEnv) (store : MessageStore)
    (chat_id user_message raw : String) :
    (∀ osEnv, matchThresholds osEnv = (70, 50)) ∧
    (∀ best score trail,
      env.dbQueryFails = false →
      extractOne env.scorer raw ((buildChoices env.dbTrails).map (·.1)) = some (best, score) →
      score > dbMatchThreshold →
      ((buildChoices env.dbTrails).find? (fun p => p.1 = best)).map (·.2) = some trail →
      fuzzy_match_trail env raw = some trail) ∧
    ((∀ best score,
        extractOne env.scorer raw ((buildChoices env.dbTrails).map (·.1)) = some (best, score) →
        score ≤ dbMatchThreshold) →
     (∀ best score,
        extractOne env.scorer raw ((buildChoices MOCK_TRAILS_DB).map (·.1)) = some (best, score) →
        score ≤ mockMatchThreshold) →
     fuzzy_match_trail env raw = none) ∧
    ((∀ best score,
        extractOne env.scorer raw ((buildChoices env.dbTrails).map (·.1)) = some (best, score) →
        score ≤ dbMatchThreshold) →
     ∀ best score trail,
      extractOne env.scorer raw ((buildChoices MOCK_TRAILS_DB).map (·.1)) = some (best, score) →
      score > mockMatchThreshold →
      ((buildChoices MOCK_TRAILS_DB).find? (fun p => p.1 = best)).map (·.2) = some trail →
      fuzzy_match_trail env raw = some trail) ∧
    (∀ ex : Extraction,
      gatePasses user_message = true →
      env.intentResult = some ex →
      ex.is_planning_trip = true →
      truthyStr ex.trail_name_raw = true →
      fuzzy_match_trail env (ex.trail_name_raw.getD "") = none →
      run_pipeline env store chat_id user_message =
        (PipelineOutcome.aborted, store, [])) := by
  refine ⟨fun _ => rfl, ?_, ?_, ?_, ?_⟩
  · intro best score trail hfail hext hscore hfind
    unfold fuzzy_match_trail
    rw [db_attempt_accept env raw best score trail hfail hext hscore hfind]
  · intro hdbrej hmockrej
    unfold fuzzy_match_trail
    rw [db_attempt_reject env raw hdbrej, mock_attempt_reject env raw hmockrej]
  · intro hdbrej best score trail hext hscore hfind
    unfold fuzzy_match_trail
    rw [db_attempt_reject env raw hdbrej]
    unfold fuzzy_mock_attempt
    simp only [hext, if_pos hscore]
    exact hfind
  · intro ex hgate hint hplan hname hmatch
    unfold run_pipeline
    simp [hgate, extract_intent, hint, hplan, hname, hmatch]

/-- Oracle bundle for the C5 witness: empty database (so the primary source
rejects) and a query the mock source accepts. -/
def envW5 : PipelineEnv :=
  ⟨some ⟨true, some "Mailbox", none⟩, none, [], false, demoScorer, 6, true⟩

/-- C5 witness: the theorem applied at a concrete grounding call — the empty
database rejects, the mock source scores "Mailbox Peak" at 80 > 50 and the
match is returned. -/
theorem claim_C5_witness :
    fuzzy_match_trail envW5 "Mailbox" = some mailboxPeak :=
  ((claim_C5 envW5 emptyStore "g1" "hike" "Mailbox").2.2.2.1)
    (fun _ _ h => Option.noConfusion h)
    "Mailbox Peak" 80 mailboxPeak rfl (by decide) rfl

/-- C5 counterexample: the thresholds do not come from configuration — under
two different environments (one empty, one explicitly setting a plausible
threshold variable) the thresholds are the same hard-coded pair `(70, 50)`,
and the only environment variable the service reads at all is the API key;
this refutes "both thresholds are exposed as configuration, not constants". -/
theorem claim_C5_counterexample :
    matchThresholds (fun _ => none) = (70, 50) ∧
    matchThresholds
      (fun k => if k = "HIKEBOT_MATCH_THRESHOLDS" then some "90,80" else none) = (70, 50) ∧
    autoPlannerEnvReads = ["OPENAI_API_KEY"] :=
  ⟨rfl, rfl, rfl⟩

/-- C6: when the synthesis backend fails after grounding succeeded (and the
final insert goes through), the run still posts exactly one
`'assistant'`-role message whose payload is the deterministic fallback built
from the matched entity's fields alone — its title carries the entity name
and its stats carry the entity's distance and elevation values — never zero
messages. -/
theorem claim_C6 (env : PipelineEnv) (store : MessageStore)
    (chat_id user_message : String) (ex : Extraction) (trail : Trail)
    (hgate : gatePasses user_message = true)
    (hint : env.intentResult = some ex)
    (hplan : ex.is_planning_trip = true)
    (hname : truthyStr ex.trail_name_raw = true)
    (hmatch : fuzzy_match_trail env (ex.trail_name_raw.getD "") = some trail)
    (hdate : dateWellFormed ex.target_date_str = true)
    (hgen : env.genResult = none)
    (hdb : env.dbInsertOk = true) :
    ∃ row : Row,
      run_pipeline env store chat_id user_message =
        (PipelineOutcome.posted (fallbackAnnouncement trail),
         ⟨store.nextId + 1, store.rows ++ [row]⟩,
         [Effect.persistRow row]) ∧
      row.role = "assistant" ∧ row.user_id = none ∧
      row.content = Json.dumps (fallbackAnnouncement trail) ∧
      (fallbackAnnouncement trail).getField "title" =
        some (Json.str ("Hike to " ++ trail.name)) ∧
      (((fallbackAnnouncement trail).getField "stats").bind
        (fun st => st.getField "dist")) =
        some (Json.str (pyFloatStr trail.length_km ++ "km")) ∧
      (((fallbackAnnouncement trail).getField "stats").bind
        (fun st => st.getField "elev")) =
        some (Json.str (toString trail.elevation_gain_m ++ "m")) := by
  obtain ⟨row, hrow, h1, h2, h3, h4, h5, h6⟩ :=
    run_pipeline_commit env store chat_id user_message ex trail hgate hint hplan
      hname hmatch hdate hdb
  refine ⟨row, ?_, h1, h2, ?_, rfl, rfl, rfl⟩
  · rw [hrow, hgen]
    rfl
  · rw [h5, hgen]
    rfl

/-- C6 witness: the fallback theorem applied at a concrete run whose
synthesis call fails. -/
theorem claim_C6_witness :
    (gatePasses "let us plan a hike" = true ∧ envW3.genResult = none ∧
     envW3.dbInsertOk = true ∧
     fuzzy_match_trail envW3 "Mailbox" = some mailboxPeak) ∧
    (∃ row : Row,
      run_pipeline envW3 emptyStore "g1" "let us plan a hike" =
        (PipelineOutcome.posted (fallbackAnnouncement mailboxPeak),
         ⟨emptyStore.nextId + 1, emptyStore.rows ++ [row]⟩,
         [Effect.persistRow row]) ∧
      row.role = "assistant" ∧ row.user_id = none ∧
      row.content = Json.dumps (fallbackAnnouncement mailboxPeak) ∧
      (fallbackAnnouncement mailboxPeak).getField "title" =
        some (Json.str ("Hike to " ++ mailboxPeak.name)) ∧
      (((fallbackAnnouncement mailboxPeak).getField "stats").bind
        (fun st => st.getField "dist")) =
        some (Json.str (pyFloatStr mailboxPeak.length_km ++ "km")) ∧
      (((fallbackAnnouncement mailboxPeak).getField "stats").bind
        (fun st => st.getField "elev")) =
        some (Json.str (toString mailboxPeak.elevation_gain_m ++ "m"))) :=
  ⟨⟨by decide, rfl, rfl, rfl⟩,
   claim_C6 envW3 emptyStore "g1" "let us plan a hike"
     ⟨true, some "Mailbox", some "2025-06-07"⟩ mailboxPeak
     (by decide) rfl rfl (by decide) rfl (by decide) rfl rfl⟩

/-! ### Message-store lemmas -/

/-- Store invariant: every stored id is below the sequence value and ids are
strictly increasing along the log. -/
def storeWF (s : MessageStore) : Prop :=
  (∀ r ∈ s.rows, r.id < s.nextId) ∧ s.rows.Pairwise (fun a b => a.id < b.id)

/-- One insert preserves the store invariant. -/
theorem insert_wf (s : MessageStore) (gid : String) (uid : Option Nat)
    (sender role content : String) (h : storeWF s) :
    storeWF (s.insert gid uid sender role content).2 := by
  obtain ⟨hlt, hpw⟩ := h
  constructor
  · intro r hr
    simp only [MessageStore.insert, List.mem_append, List.mem_singleton] at hr
    rcases hr with hr | hr
    · exact Nat.lt_succ_of_lt (hlt r hr)
    · rw [hr]
      exact Nat.lt_succ_self _
  · simp only [MessageStore.insert]
    rw [List.pairwise_append]
    exact ⟨hpw, List.pairwise_singleton _ _, by
      intro a ha b hb
      rw [List.mem_singleton.mp hb]
      exact hlt a ha⟩

/-- The store invariant holds at the empty store. -/
theorem emptyStore_wf : storeWF emptyStore :=
  ⟨fun _ hr => absurd hr (List.not_mem_nil _), List.Pairwise.nil⟩

/-- Replaying any history of inserts preserves the store invariant. -/
theorem applyOps_wf (ops : List InsertOp) :
    ∀ s : MessageStore, storeWF s → storeWF (applyOps s ops) := by
  induction ops with
  | nil => exact fun s h => h
  | cons op t ih =>
    intro s h
    exact ih _ (insert_wf s op.group_id op.user_id op.sender op.role op.content h)

/-- The reversed prefix of a reversed list is a suffix. -/
theorem reverse_take_reverse_suffix {α : Type} (l : List α) (n : Nat) :
    ((l.reverse.take n).reverse) <:+ l := by
  obtain ⟨t, ht⟩ := List.take_prefix n l.reverse
  exact ⟨t.reverse, by rw [← List.reverse_append, ht, List.reverse_reverse]⟩

/-- C8 (amended): under any interleaving of concurrent ingress inserts,
message ids within each room are strictly increasing, and a room read
(`list_group_messages`) returns a suffix of the room's log — i.e. the most
recent messages in insertion order.  Gaplessness does not hold: the id
sequence is shared by all rooms (see the counterexample). -/
theorem claim_C8 (ops : List InsertOp) (gid : String) (limit : Nat) :
    ((applyOps emptyStore ops).roomIds gid).Pairwise (· < ·) ∧
    list_group_messages (applyOps emptyStore ops) gid limit <:+
      (applyOps emptyStore ops).roomRows gid := by
  have hwf := applyOps_wf ops emptyStore emptyStore_wf
  constructor
  · unfold MessageStore.roomIds MessageStore.roomRows
    exact List.pairwise_map.mpr (hwf.2.filter _)
  · unfold list_group_messages
    exact reverse_take_reverse_suffix _ _

/-- Concrete interleaving for the C8 counterexample: rooms "A" and "B"
receive alternating messages. -/
def demoOpsC8 : List InsertOp :=
  [⟨"A", some 1, "ann", "user", "first"⟩,
   ⟨"B", some 2, "bob", "user", "other room"⟩,
   ⟨"A", some 1, "ann", "user", "second"⟩]

/-- C8 counterexample: with rooms "A" and "B" interleaved, room "A" holds
ids `[1, 3]` — strictly increasing but not gapless (id 2 went to room "B"),
refuting "ids ... are strictly increasing and gapless ... within a room". -/
theorem claim_C8_counterexample :
    (applyOps emptyStore demoOpsC8).roomIds "A" = [1, 3] ∧
    idsGapless ((applyOps emptyStore demoOpsC8).roomIds "A") = false := by
  exact ⟨rfl, rfl⟩

/-- C9 (amended): a non-empty message containing a gear keyword and no route
keyword makes `handle_chat` raise instead of returning a reply — but the
exception is an `AttributeError` on `req.difficulty` (a field `GearRequest`
does not declare), raised inside `build_gear_checklist` before the
`GearChecklist(items=items)` construction is ever reached; that construction
would itself fail validation for the missing required `water_liters` and
`calories_kcal` fields, as the second conjunct records. -/
theorem claim_C9 (routes : List Route) (user_message : String)
    (hne : pyStrip user_message ≠ "")
    (hroute : ROUTE_WORDS.any
      (fun w => strContains (pyLower (pyStrip user_message)) w) = false)
    (hgear : GEAR_WORDS.any
      (fun w => strContains (pyLower (pyStrip user_message)) w) = true) :
    handle_chat routes user_message = Except.error (PyErr.attributeError "difficulty") ∧
    ∀ items : List String,
      GearChecklist.validate ⟨some items, none, none, none⟩ =
        Except.error (PyErr.validationError "GearChecklist"
          ["water_liters", "calories_kcal"]) := by
  constructor
  · simp [handle_chat, hne, hroute, hgear, build_gear_checklist]
  · intro items
    rfl

/-- C9 witness: the theorem applied to the concrete gear question
`"what should we pack"`. -/
theorem claim_C9_witness :
    (pyStrip "what should we pack" ≠ "" ∧
     ROUTE_WORDS.any
       (fun w => strContains (pyLower (pyStrip "what should we pack")) w) = false ∧
     GEAR_WORDS.any
       (fun w => strContains (pyLower (pyStrip "what should we pack")) w) = true) ∧
    (handle_chat [] "what should we pack" =
       Except.error (PyErr.attributeError "difficulty") ∧
     ∀ items : List String,
       GearChecklist.validate ⟨some items, none, none, none⟩ =
         Except.error (PyErr.validationError "GearChecklist"
           ["water_liters", "calories_kcal"])) :=
  ⟨⟨by decide, by decide, by decide⟩,
   claim_C9 [] "what should we pack" (by decide) (by decide) (by decide)⟩

/-- C9 counterexample: on the concrete input `"what should we pack"` the
handler raises `AttributeError("difficulty")` and not the claimed
`ValidationError` from the `GearChecklist` construction. -/
theorem claim_C9_counterexample :
    handle_chat [] "what should we pack" =
      Except.error (PyErr.attributeError "difficulty") ∧
    handle_chat [] "what should we pack" ≠
      Except.error (PyErr.validationError "GearChecklist"
        ["water_liters", "calories_kcal"]) := by
  constructor
  · rfl
  · intro h
    rw [show handle_chat [] "what should we pack" =
      Except.error (PyErr.attributeError "difficulty") from rfl] at h
    exact absurd (Except.error.inj h) (by decide)

/-! ### Seed-member lemmas -/

/-- Membership in the accumulator is preserved by the seed re-insertion
fold. -/
theorem foldl_seed_preserve (l : List String) (init : List String) (x : String)
    (hx : x ∈ init) :
    x ∈ l.foldl (fun rem seed => if rem.contains seed then rem else seed :: rem) init := by
  induction l generalizing init with
  | nil => exact hx
  | cons a t ih =>
    apply ih
    show x ∈ if init.contains a = true then init else a :: init
    by_cases h : init.contains a = true
    · rw [if_pos h]
      exact hx
    · rw [if_neg h]
      exact List.mem_cons_of_mem _ hx

/-- Every element of the fold list is a member of the fold's result. -/
theorem foldl_seed_mem (l : List String) (init : List String) (s : String)
    (hs : s ∈ l) :
    s ∈ l.foldl (fun rem seed => if rem.contains seed then rem else seed :: rem) init := by
  induction l generalizing init with
  | nil => cases hs
  | cons a t ih =>
    rcases List.mem_cons.mp hs with rfl | hmem
    · apply foldl_seed_preserve t _ s
      show s ∈ if init.contains s = true then init else s :: init
      by_cases h : init.contains s = true
      · rw [if_pos h]
        simpa using h
      · rw [if_neg h]
        exact List.mem_cons_self _ _
    · exact ih _ hmem

/-- C10: every successful `leave_route_group` call returns (and stores back)
a member list that contains every seed member — the fold re-inserts any seed
the removal dropped, so a seed member can never be removed from a route
group by leaving. -/
theorem claim_C10 (routeIds : List String)
    (groupMembers : List (String × List String)) (route_id username : String)
    (result : List String)
    (h : leave_route_group routeIds groupMembers route_id username =
      Except.ok result) :
    ∀ seed ∈ SEED_MEMBERS, seed ∈ result := by
  unfold leave_route_group at h
  split at h
  · exact absurd h (by simp)
  · split at h
    · exact absurd h (by simp)
    · have hres := Except.ok.inj h
      intro seed hseed
      rw [← hres]
      unfold leave_route_group_update
      exact foldl_seed_mem SEED_MEMBERS _ seed hseed

/-- C10 witness: the theorem applied to a concrete leave — Alice leaves, and
the returned list still contains all three seed members (Alice re-inserted
at the front). -/
theorem claim_C10_witness :
    leave_route_group ["r1"] [("r1", ["Trip Leader", "Alice", "Bob", "Zed"])]
      "r1" "alice" = Except.ok ["Alice", "Trip Leader", "Bob", "Zed"] ∧
    ∀ seed ∈ SEED_MEMBERS, seed ∈ ["Alice", "Trip Leader", "Bob", "Zed"] :=
  ⟨rfl,
   claim_C10 ["r1"] [("r1", ["Trip Leader", "Alice", "Bob", "Zed"])] "r1" "alice"
     ["Alice", "Trip Leader", "Bob", "Zed"] rfl⟩

end HikeBot
